import Mathlib

/-!
Verification of the STOCK-AI paper-trading ledger and prediction pipeline.

The definitions below are a shallow embedding of the TypeScript source:
* `handleTrade`      embeds `handleTrade` in
  `frontend/src/components/StockPredictionWidget.tsx` (lines 255-322);
* `handlePortfolioTrade` embeds `handlePortfolioTrade` in
  `frontend/src/components/DemoTrading.tsx` (lines 26-76);
* `normalizeWidget`, `normalizeConfidence`, `chosePrices` embed the
  normalization stage of `fetchPrediction` in `StockPredictionWidget.tsx`
  (lines 113-155 and 178-198);
* `predictLoop` / `mapRaw` embed `stockApi.predict` in the api service
  module (retry loop with backoff, lines 249-290);
* `fetchPrediction` embeds the widget's fetch control flow around them;
* `loadBalance` embeds the balance-loading expression
  `parseFloat(localStorage.getItem('balance') || '1000000')`.

JavaScript numbers are modelled by `JNum`: either NaN, an infinity, or a
finite value represented exactly as a rational.  The arithmetic the source
performs (add, sub, mul of trade amounts) is exact for the decimal values
involved, so the rational model is faithful; NaN/infinity propagation and
comparison semantics follow IEEE-754 / JavaScript (`NaN cmp x` is false).
-/

/-- Model of a JavaScript number: NaN, an infinity, or an exact finite
rational value. -/
inductive JNum where
  | nan : JNum
  | inf : JNum
  | ninf : JNum
  | fin : ℚ → JNum
deriving DecidableEq

namespace JNum

/-- JavaScript unary minus. -/
def neg : JNum → JNum
  | nan => nan
  | inf => ninf
  | ninf => inf
  | fin q => fin (-q)

/-- JavaScript `+` on numbers. -/
def add : JNum → JNum → JNum
  | nan, _ => nan
  | _, nan => nan
  | inf, ninf => nan
  | ninf, inf => nan
  | inf, _ => inf
  | _, inf => inf
  | ninf, _ => ninf
  | _, ninf => ninf
  | fin a, fin b => fin (a + b)

/-- JavaScript `*` on numbers. -/
def mul : JNum → JNum → JNum
  | nan, _ => nan
  | _, nan => nan
  | inf, inf => inf
  | inf, ninf => ninf
  | ninf, inf => ninf
  | ninf, ninf => inf
  | inf, fin q => if 0 < q then inf else if q < 0 then ninf else nan
  | fin q, inf => if 0 < q then inf else if q < 0 then ninf else nan
  | ninf, fin q => if 0 < q then ninf else if q < 0 then inf else nan
  | fin q, ninf => if 0 < q then ninf else if q < 0 then inf else nan
  | fin a, fin b => fin (a * b)

/-- JavaScript `-` on numbers. -/
def sub (a b : JNum) : JNum := add a (neg b)

/-- JavaScript `>` on numbers: any comparison involving NaN is false. -/
def gtb : JNum → JNum → Bool
  | nan, _ => false
  | _, nan => false
  | inf, inf => false
  | inf, _ => true
  | ninf, _ => false
  | fin _, inf => false
  | fin _, ninf => true
  | fin a, fin b => decide (b < a)

/-- JavaScript falsiness of a number: `0`, `-0` and `NaN` are falsy. -/
def isFalsy : JNum → Bool
  | nan => true
  | fin q => q == 0
  | _ => false

end JNum

/-- Side of a trade, the `type` field of a transaction record. -/
inductive Side where
  | BUY : Side
  | SELL : Side
deriving DecidableEq

/-- One entry of the `portfolio` array: `{ ticker, quantity }`. -/
structure Holding where
  ticker : String
  quantity : Int
deriving DecidableEq

/-- One entry of the `transactions` array. -/
structure Tx where
  ticker : String
  type : Side
  quantity : Int
  price : JNum
  timestamp : String
deriving DecidableEq

/-- The persisted ledger aggregate: balance, portfolio and transaction log. -/
structure Snapshot where
  balance : JNum
  portfolio : List Holding
  transactions : List Tx
deriving DecidableEq

/-- The seed snapshot: balance 1,000,000, no holdings, no transactions. -/
def seedSnapshot : Snapshot :=
  { balance := JNum.fin 1000000, portfolio := [], transactions := [] }

/-- Quantity currently held for a ticker: the `quantity` of the first
portfolio entry found for it (`findIndex` + read), `0` when absent. -/
def holdingQty (l : List Holding) (t : String) : Int :=
  match l.find? (fun h => h.ticker == t) with
  | some h => h.quantity
  | none => 0

/-- Portfolio update on an accepted BUY: add to the first entry with this
ticker, or push a new entry at the end (`portfolio.push`) when absent. -/
def buyPortfolio : List Holding → String → Int → List Holding
  | [], t, q => [⟨t, q⟩]
  | h :: rest, t, q =>
      if h.ticker == t then { h with quantity := h.quantity + q } :: rest
      else h :: buyPortfolio rest t q

/-- Portfolio update on an accepted SELL: subtract from the first entry with
this ticker, and splice the entry out when its quantity reaches exactly 0.
When no entry exists the list is returned unchanged (the widget handler
guards this case with `if (idx >= 0)`; in the DemoTrading handler the case
is unreachable because the insufficient-holdings check fires first). -/
def sellPortfolio : List Holding → String → Int → List Holding
  | [], _, _ => []
  | h :: rest, t, q =>
      if h.ticker == t then
        if h.quantity - q == 0 then rest
        else { h with quantity := h.quantity - q } :: rest
      else h :: sellPortfolio rest t q

/-- Rejection values of the trade handlers.  In the source each rejection is
an `alert(...)` followed by an early `return` - a returned value, never a
thrown exception - and the three stored records are left untouched. -/
inductive TradeReject where
  | invalidRequest : TradeReject
  | noPriceInfo : TradeReject
  | insufficientHoldings : TradeReject
  | insufficientFunds : TradeReject
deriving DecidableEq

/-- Commit of an accepted BUY: subtract the cost, update the portfolio,
append one transaction record. -/
def commitBuy (s : Snapshot) (t : String) (q : Int) (price : JNum) (ts : String) : Snapshot :=
  { balance := JNum.sub s.balance (JNum.mul price (JNum.fin (q : ℚ))),
    portfolio := buyPortfolio s.portfolio t q,
    transactions := s.transactions ++ [⟨t, Side.BUY, q, price, ts⟩] }

/-- Commit of an accepted SELL: add the proceeds, update the portfolio,
append one transaction record. -/
def commitSell (s : Snapshot) (t : String) (q : Int) (price : JNum) (ts : String) : Snapshot :=
  { balance := JNum.add s.balance (JNum.mul price (JNum.fin (q : ℚ))),
    portfolio := sellPortfolio s.portfolio t q,
    transactions := s.transactions ++ [⟨t, Side.SELL, q, price, ts⟩] }

/-- The trade handler of `StockPredictionWidget.tsx` (`handleTrade`,
lines 255-322).  `qtyInput` is the `parseInt` result (`none` models NaN);
`price` is `prediction.current_price`; the timestamp comes from
`new Date().toISOString()`.  Rejections are returned as values. -/
def handleTrade (s : Snapshot) (ticker : String) (price : JNum) (qtyInput : Option Int)
    (side : Side) (ts : String) : Except TradeReject Snapshot :=
  match qtyInput with
  | none => .error .invalidRequest
  | some quantity =>
    if quantity ≤ 0 then .error .invalidRequest
    else
      let currentQty := holdingQty s.portfolio ticker
      let totalValue := JNum.mul price (JNum.fin (quantity : ℚ))
      match side with
      | .SELL =>
          if currentQty < quantity then .error .insufficientHoldings
          else .ok (commitSell s ticker quantity price ts)
      | .BUY =>
          if JNum.gtb totalValue s.balance then .error .insufficientFunds
          else .ok (commitBuy s ticker quantity price ts)

/-- Price used by the DemoTrading handler: the price of the last transaction
for this ticker (`[...transactions].reverse().find(...)`), `0` when none. -/
def lastTxPrice (txs : List Tx) (t : String) : JNum :=
  match txs.reverse.find? (fun tx => tx.ticker == t) with
  | some tx => tx.price
  | none => JNum.fin 0

/-- The trade handler of `DemoTrading.tsx` (`handlePortfolioTrade`,
lines 26-76).  The reference price is derived from the last transaction for
the ticker and rejected when falsy (`if (!price)`). -/
def handlePortfolioTrade (s : Snapshot) (ticker : String) (qtyInput : Option Int)
    (side : Side) (ts : String) : Except TradeReject Snapshot :=
  match qtyInput with
  | none => .error .invalidRequest
  | some quantity =>
    if quantity ≤ 0 then .error .invalidRequest
    else
      let price := lastTxPrice s.transactions ticker
      if JNum.isFalsy price then .error .noPriceInfo
      else
        let currentQty := holdingQty s.portfolio ticker
        match side with
        | .SELL =>
            if currentQty < quantity then .error .insufficientHoldings
            else .ok (commitSell s ticker quantity price ts)
        | .BUY =>
            if JNum.gtb (JNum.mul price (JNum.fin (quantity : ℚ))) s.balance then
              .error .insufficientFunds
            else .ok (commitBuy s ticker quantity price ts)

/-- A trade request arriving at either UI surface. -/
inductive TradeReq where
  | widget (ticker : String) (price : JNum) (qtyInput : Option Int) (side : Side) (ts : String)
  | demo (ticker : String) (qtyInput : Option Int) (side : Side) (ts : String)

/-- Applying one request to the ledger: an accepted trade commits the new
snapshot, a rejected one leaves the stored state untouched. -/
def step (s : Snapshot) : TradeReq → Snapshot
  | .widget t p q sd ts =>
      match handleTrade s t p q sd ts with
      | .ok s' => s'
      | .error _ => s
  | .demo t q sd ts =>
      match handlePortfolioTrade s t q sd ts with
      | .ok s' => s'
      | .error _ => s

/-- Replay of a request sequence from the seed snapshot. -/
def replay (reqs : List TradeReq) : Snapshot :=
  reqs.foldl step seedSnapshot

/-- Validity of a trade request: a positive integer quantity, and (for the
widget surface, which supplies the reference price) a non-negative finite
price. -/
def ValidReq : TradeReq → Prop
  | .widget _ p q _ _ =>
      (∃ k : Int, q = some k ∧ 0 < k) ∧ (∃ x : ℚ, p = JNum.fin x ∧ 0 ≤ x)
  | .demo _ q _ _ => ∃ k : Int, q = some k ∧ 0 < k

/-! ## Prediction payloads and normalization -/

/-- The raw payload shape `PredictionApiResponse` as the widget types it:
every field may be absent (`none` models `undefined`/`null`/non-array). -/
structure RawApi where
  ticker : Option String
  current_price : Option JNum
  prediction_dates : Option (List String)
  prediction_prices : Option (List JNum)
  predicted_prices : Option (List JNum)
  confidence : Option JNum
deriving DecidableEq

/-- The normalized `StockPrediction` record the widget builds. -/
structure StockPrediction where
  ticker : String
  current_price : JNum
  prediction_dates : List String
  prediction_prices : List JNum
  confidence : JNum
deriving DecidableEq

/-- JavaScript `s || d` for an optional string: absent and the empty string
are falsy. -/
def jsOrStr (s : Option String) (d : String) : String :=
  match s with
  | some t => if t = "" then d else t
  | none => d

/-- Price-series selection
`data.prediction_prices || data.predicted_prices || []`.  An array value is
always truthy in JavaScript - even when empty - so the first *present*
field wins. -/
def chosePrices (d : RawApi) : List JNum :=
  match d.prediction_prices with
  | some l => l
  | none =>
    match d.predicted_prices with
    | some l => l
    | none => []

/-- Confidence normalization (widget lines 140-146 and 184-190):
`undefined`/`null` become 0; otherwise `if (confidence < 1)` multiply
by 100; otherwise pass through.  The `<` is the JavaScript comparison
(false on NaN). -/
def normalizeConfidence : Option JNum → JNum
  | none => JNum.fin 0
  | some c => if JNum.gtb (JNum.fin 1) c then JNum.mul c (JNum.fin 100) else c

/-- Rejections of the widget's primary-path normalization stage. -/
inductive WidgetReject where
  | noData : WidgetReject
  | invalidFormat : WidgetReject
  | emptySeries : WidgetReject
deriving DecidableEq

/-- The widget's primary-path normalization (`fetchPrediction`,
lines 113-155): absence check, format check, price-series selection,
empty-series check, confidence normalization, record construction.
No reshaping of the two arrays takes place beyond the selection. -/
def normalizeWidget (dataOpt : Option RawApi) (symbol : String) :
    Except WidgetReject StockPrediction :=
  match dataOpt with
  | none => .error .noData
  | some data =>
    if (data.prediction_prices = none ∧ data.predicted_prices = none)
        ∨ data.prediction_dates = none ∨ data.current_price = none then
      .error .invalidFormat
    else
      let prices := chosePrices data
      if prices = [] ∨ data.prediction_dates.getD [] = [] then .error .emptySeries
      else
        .ok { ticker := jsOrStr data.ticker symbol,
              current_price := data.current_price.getD (JNum.fin 0),
              prediction_dates := data.prediction_dates.getD [],
              prediction_prices := prices,
              confidence := normalizeConfidence data.confidence }

/-- Confidence rule exactly as the claim words it, for comparison with the
source's `normalizeConfidence`: absent becomes 0, a value in `[0,1)` is
multiplied by 100, any other value passes through unchanged. -/
def claimConfidence : Option JNum → JNum
  | none => JNum.fin 0
  | some (JNum.fin q) => if 0 ≤ q ∧ q < 1 then JNum.fin (q * 100) else JNum.fin q
  | some c => c

/-! ## Persistence loading -/

/-- Longest leading run of decimal digits of a character list, and the rest. -/
def takeDigits : List Char → List Char × List Char
  | [] => ([], [])
  | c :: cs =>
      if c.isDigit then
        let p := takeDigits cs
        (c :: p.1, p.2)
      else ([], c :: cs)

/-- Numeric value of a digit run. -/
def digitsToNat (ds : List Char) : Nat :=
  ds.foldl (fun acc c => acc * 10 + (c.toNat - 48)) 0

/-- Model of the JavaScript `parseFloat` builtin on decimal literals:
optional leading spaces, optional sign, integer digits, optional fractional
digits; when no digit is consumed the result is NaN.  (Exponent and
`Infinity` forms, which never arise for the stored balance record, are not
modelled.) -/
def jsParseFloat (s : String) : JNum :=
  let cs := s.data.dropWhile (fun c => c = ' ')
  let signed : ℚ × List Char :=
    match cs with
    | '-' :: r => (-1, r)
    | '+' :: r => (1, r)
    | r => (1, r)
  let ip := takeDigits signed.2
  let fp : List Char :=
    match ip.2 with
    | '.' :: r => (takeDigits r).1
    | _ => []
  if ip.1 = [] ∧ fp = [] then JNum.nan
  else JNum.fin (signed.1 * ((digitsToNat ip.1 : ℚ) + (digitsToNat fp : ℚ) / (10 ^ fp.length)))

/-- Loading the stored cash balance:
`parseFloat(localStorage.getItem('balance') || '1000000')` - the stored
text when present and non-empty, the seed text otherwise, fed to
`parseFloat`.  Used identically by `DemoTrading.tsx` (line 10) and
`StockPredictionWidget.tsx` (line 276). -/
def loadBalance (stored : Option String) : JNum :=
  jsParseFloat (jsOrStr stored "1000000")

/-! ## Prediction client: retry loop and widget control flow -/

/-- Transport-level error carried by a failed request, as the widget reads
it: a message and an optional HTTP status. -/
structure ApiError where
  message : String
  status : Option Nat
deriving DecidableEq

/-- Outcome of one `api.get` attempt inside `stockApi.predict`:
a response whose `data` may be falsy, or a thrown transport error. -/
inductive ApiOutcome where
  | resp : Option RawApi → ApiOutcome
  | fail : ApiError → ApiOutcome

/-- The record `stockApi.predict` maps a raw response onto (api service
lines 269-275). -/
structure MappedPrediction where
  ticker : String
  current_price : Option JNum
  prediction_dates : List String
  prediction_prices : List JNum
  confidence : JNum
deriving DecidableEq

/-- Mapping in `stockApi.predict`: `ticker || argument`,
`current_price` as-is, `prediction_dates || []`,
`prediction_prices || predicted_prices || []`, `confidence || 0`. -/
def mapRaw (raw : RawApi) (tickerArg : String) : MappedPrediction :=
  { ticker := jsOrStr raw.ticker tickerArg,
    current_price := raw.current_price,
    prediction_dates := raw.prediction_dates.getD [],
    prediction_prices := chosePrices raw,
    confidence :=
      match raw.confidence with
      | none => JNum.fin 0
      | some c => if JNum.isFalsy c then JNum.fin 0 else c }

/-- The error thrown when `response.data` is falsy. -/
def noDataError : ApiError := { message := "No data received from server", status := none }

/-- The retry loop of `stockApi.predict` (api service lines 249-290),
driven by an oracle giving the outcome of each attempt.  `retries` starts
at 2; a failed attempt with retries left decrements the counter and sleeps
`2000 * (3 - retries)` milliseconds; the last attempt's error is rethrown.
Returns the list of sleeps performed and the terminal result. -/
def predictLoop (symbol : String) (oracle : Nat → ApiOutcome) :
    Nat → Nat → List Nat × Except ApiError MappedPrediction
  | 0, attempt =>
    match oracle attempt with
    | .resp (some raw) => ([], .ok (mapRaw raw symbol))
    | .resp none => ([], .error noDataError)
    | .fail e => ([], .error e)
  | r + 1, attempt =>
    match oracle attempt with
    | .resp (some raw) => ([], .ok (mapRaw raw symbol))
    | .resp none =>
        let p := predictLoop symbol oracle r (attempt + 1)
        (2000 * (3 - r) :: p.1, p.2)
    | .fail _ =>
        let p := predictLoop symbol oracle r (attempt + 1)
        (2000 * (3 - r) :: p.1, p.2)

/-- The mapped record as the widget re-reads it: `prediction_prices` and
`prediction_dates` always present, `predicted_prices` absent. -/
def mappedToRaw (m : MappedPrediction) : RawApi :=
  { ticker := some m.ticker,
    current_price := m.current_price,
    prediction_dates := some m.prediction_dates,
    prediction_prices := some m.prediction_prices,
    predicted_prices := none,
    confidence := some m.confidence }

/-- The normalized record the widget builds on the degraded path
(lines 181-198), after the non-empty guard has passed. -/
def degradedNormalize (d : MappedPrediction) (symbol : String) : StockPrediction :=
  { ticker := jsOrStr (some d.ticker) symbol,
    current_price := d.current_price.getD (JNum.fin 0),
    prediction_dates := d.prediction_dates,
    prediction_prices := d.prediction_prices,
    confidence := normalizeConfidence (some d.confidence) }

/-- Whether `pat` is a leading segment of `s`. -/
def leadsWith : List Char → List Char → Bool
  | [], _ => true
  | _ :: _, [] => false
  | p :: ps, c :: cs => p == c && leadsWith ps cs

/-- Whether `pat` occurs as a contiguous segment of `s`. -/
def hasSub (pat : List Char) : List Char → Bool
  | [] => leadsWith pat []
  | c :: rest => leadsWith pat (c :: rest) || hasSub pat rest

/-- JavaScript `String.prototype.includes`. -/
def jsIncludes (s pat : String) : Bool :=
  hasSub pat.data s.data

/-- Terminal errors surfaced by the widget's fetch. -/
inductive FetchErr where
  | noData : FetchErr
  | invalidFormat : FetchErr
  | emptySeries : FetchErr
  | notFound : FetchErr
  | badRequest : FetchErr
  | other : String → FetchErr
deriving DecidableEq

/-- Error classification at the end of the widget's catch block
(lines 212-218): 404, 400, or general failure. -/
def classify (e : ApiError) : FetchErr :=
  match e.status with
  | some 404 => .notFound
  | some 400 => .badRequest
  | _ => .other e.message

deriving instance DecidableEq for Except

/-- Observable trace of one `fetchPrediction` run: sleeps performed by the
primary retry loop, whether the degraded path ran and its sleeps, and the
final outcome. -/
structure FetchTrace where
  primarySleeps : List Nat
  degradedAttempted : Bool
  degradedSleeps : List Nat
  result : Except FetchErr StockPrediction
deriving DecidableEq

/-- The widget's `fetchPrediction` control flow (lines 78-223): run the
primary `stockApi.predict`; on success normalize the payload; on an error
whose message contains `timeout`, run one degraded `stockApi.predict` and
accept its result if its price series is non-empty; otherwise classify the
original error. -/
def fetchPrediction (symbol : String) (primaryOracle degradedOracle : Nat → ApiOutcome) :
    FetchTrace :=
  let pr := predictLoop symbol primaryOracle 2 0
  match pr.2 with
  | .ok data =>
      { primarySleeps := pr.1, degradedAttempted := false, degradedSleeps := [],
        result :=
          match normalizeWidget (some (mappedToRaw data)) symbol with
          | .ok p => Except.ok p
          | .error .noData => .error .noData
          | .error .invalidFormat => .error .invalidFormat
          | .error .emptySeries => .error .emptySeries }
  | .error e =>
      if jsIncludes e.message "timeout" then
        let dr := predictLoop symbol degradedOracle 2 0
        match dr.2 with
        | .ok d =>
            if 0 < d.prediction_prices.length then
              { primarySleeps := pr.1, degradedAttempted := true, degradedSleeps := dr.1,
                result := .ok (degradedNormalize d symbol) }
            else
              { primarySleeps := pr.1, degradedAttempted := true, degradedSleeps := dr.1,
                result := .error (classify e) }
        | .error _ =>
            { primarySleeps := pr.1, degradedAttempted := true, degradedSleeps := dr.1,
              result := .error (classify e) }
      else
        { primarySleeps := pr.1, degradedAttempted := false, degradedSleeps := [],
          result := .error (classify e) }

/-! ## Concrete payloads used by counterexamples and witnesses -/

/-- Payload with a present-but-empty `prediction_prices` and a non-empty
`predicted_prices`. -/
def c7payload : RawApi :=
  { ticker := some "TCS", current_price := some (JNum.fin 100),
    prediction_dates := some ["2024-01-01"],
    prediction_prices := some [], predicted_prices := some [JNum.fin 5],
    confidence := some (JNum.fin (9/10)) }

/-- Payload whose dates and prices arrays have different lengths. -/
def c8payload : RawApi :=
  { ticker := some "TCS", current_price := some (JNum.fin 10),
    prediction_dates := some ["d1"],
    prediction_prices := some [JNum.fin 1, JNum.fin 2], predicted_prices := none,
    confidence := none }

/-- An all-timeout transport error, as axios raises it. -/
def timeoutError : ApiError := { message := "timeout of 15000ms exceeded", status := none }

/-- A well-formed raw payload for the degraded path. -/
def c10raw : RawApi :=
  { ticker := some "TCS", current_price := some (JNum.fin 100),
    prediction_dates := some ["d1"],
    prediction_prices := some [JNum.fin 101], predicted_prices := none,
    confidence := some (JNum.fin (9/10)) }

/-! ## Ledger invariant -/

/-- Signed contribution of one transaction record to the net quantity of a
ticker: its quantity for a BUY, the negation for a SELL, 0 for other
tickers. -/
def txDelta (t : String) (tx : Tx) : Int :=
  if tx.ticker == t then
    match tx.type with
    | .BUY => tx.quantity
    | .SELL => -tx.quantity
  else 0

/-- Net BUY minus SELL quantity of a ticker over a transaction log. -/
def netQty (txs : List Tx) (t : String) : Int :=
  (txs.map (txDelta t)).sum

/-- Invariant of the ledger state maintained by valid trades: the balance is
a non-negative finite value, every recorded transaction price is a
non-negative finite value, portfolio tickers are pairwise distinct, and the
held quantity of every ticker equals the net BUY minus SELL quantity of its
transaction records. -/
def SnapInv (s : Snapshot) : Prop :=
  (∃ b : ℚ, s.balance = JNum.fin b ∧ 0 ≤ b) ∧
  (∀ tx ∈ s.transactions, ∃ p : ℚ, tx.price = JNum.fin p ∧ 0 ≤ p) ∧
  (s.portfolio.map Holding.ticker).Nodup ∧
  (∀ t, holdingQty s.portfolio t = netQty s.transactions t)

/-! ## Helper lemmas: portfolio operations -/

theorem holdingQty_nil (t : String) : holdingQty [] t = 0 := rfl

theorem holdingQty_cons (h : Holding) (rest : List Holding) (t : String) :
    holdingQty (h :: rest) t = if h.ticker = t then h.quantity else holdingQty rest t := by
  by_cases hc : h.ticker = t
  · simp [holdingQty, List.find?_cons, hc]
  · simp [holdingQty, List.find?_cons, hc]

theorem holdingQty_eq_zero_of_not_mem {l : List Holding} {t : String}
    (h : t ∉ l.map Holding.ticker) : holdingQty l t = 0 := by
  induction l with
  | nil => rfl
  | cons hd rest ih =>
      simp only [List.map_cons, List.mem_cons] at h
      push_neg at h
      rw [holdingQty_cons, if_neg (Ne.symm h.1)]
      exact ih h.2

theorem mem_of_holdingQty_ne_zero {l : List Holding} {t : String}
    (h : holdingQty l t ≠ 0) : t ∈ l.map Holding.ticker := by
  by_contra hc
  exact h (holdingQty_eq_zero_of_not_mem hc)

theorem holdingQty_buyPortfolio_self (l : List Holding) (t : String) (q : Int) :
    holdingQty (buyPortfolio l t q) t = holdingQty l t + q := by
  induction l with
  | nil => simp [buyPortfolio, holdingQty]
  | cons hd rest ih =>
      by_cases hc : hd.ticker = t
      · simp [buyPortfolio, hc, holdingQty_cons]
      · simp only [buyPortfolio, beq_iff_eq, hc, if_false]
        rw [holdingQty_cons, if_neg hc, holdingQty_cons, if_neg hc]
        exact ih

theorem holdingQty_buyPortfolio_ne (l : List Holding) (t t' : String) (q : Int)
    (hne : t' ≠ t) : holdingQty (buyPortfolio l t q) t' = holdingQty l t' := by
  have htt' : ¬ t = t' := fun e => hne e.symm
  induction l with
  | nil =>
      simp only [buyPortfolio]
      rw [holdingQty_cons, if_neg htt']
  | cons hd rest ih =>
      by_cases hc : hd.ticker = t
      · simp [buyPortfolio, hc, holdingQty_cons, htt']
      · simp only [buyPortfolio, beq_iff_eq, hc, if_false]
        rw [holdingQty_cons, holdingQty_cons]
        by_cases hc' : hd.ticker = t'
        · simp [hc']
        · rw [if_neg hc', if_neg hc']
          exact ih

theorem buyPortfolio_tickers (l : List Holding) (t : String) (q : Int) :
    (buyPortfolio l t q).map Holding.ticker =
      if t ∈ l.map Holding.ticker then l.map Holding.ticker
      else l.map Holding.ticker ++ [t] := by
  induction l with
  | nil => simp [buyPortfolio]
  | cons hd rest ih =>
      by_cases hc : hd.ticker = t
      · simp [buyPortfolio, hc]
      · simp only [buyPortfolio, beq_iff_eq, hc, if_false, List.map_cons]
        rw [ih]
        by_cases hm : t ∈ rest.map Holding.ticker
        · rw [if_pos hm, if_pos]
          simp [hm]
        · rw [if_neg hm, if_neg]
          · simp
          · simp only [List.mem_cons]
            push_neg
            exact ⟨fun e => hc e.symm, hm⟩

theorem buyPortfolio_nodup {l : List Holding} (t : String) (q : Int)
    (h : (l.map Holding.ticker).Nodup) : ((buyPortfolio l t q).map Holding.ticker).Nodup := by
  rw [buyPortfolio_tickers]
  by_cases hm : t ∈ l.map Holding.ticker
  · rw [if_pos hm]; exact h
  · rw [if_neg hm]
    rw [List.nodup_append]
    exact ⟨h, List.nodup_singleton _, by simpa using hm⟩

theorem sellPortfolio_tickers_sublist (l : List Holding) (t : String) (q : Int) :
    ((sellPortfolio l t q).map Holding.ticker).Sublist (l.map Holding.ticker) := by
  induction l with
  | nil => simp [sellPortfolio]
  | cons hd rest ih =>
      by_cases hc : hd.ticker = t
      · by_cases hz : hd.quantity - q = 0
        · simp only [sellPortfolio, beq_iff_eq, hc, if_true, hz]
          simp only [List.map_cons]
          exact (List.Sublist.refl _).cons _
        · have hz' : (hd.quantity - q == 0) = false := by simp [hz]
          simp only [sellPortfolio, beq_iff_eq, hc, if_true, hz', Bool.false_eq_true, if_false,
            List.map_cons]
          exact (List.Sublist.refl _).cons₂ _
      · simp only [sellPortfolio, beq_iff_eq, hc, if_false, List.map_cons]
        exact ih.cons₂ _

theorem sellPortfolio_nodup {l : List Holding} (t : String) (q : Int)
    (h : (l.map Holding.ticker).Nodup) : ((sellPortfolio l t q).map Holding.ticker).Nodup :=
  (sellPortfolio_tickers_sublist l t q).nodup h

theorem holdingQty_sellPortfolio_self {l : List Holding} (t : String) (q : Int)
    (hnd : (l.map Holding.ticker).Nodup) (hmem : t ∈ l.map Holding.ticker) :
    holdingQty (sellPortfolio l t q) t = holdingQty l t - q := by
  induction l with
  | nil => simp at hmem
  | cons hd rest ih =>
      simp only [List.map_cons, List.nodup_cons] at hnd
      by_cases hc : hd.ticker = t
      · by_cases hz : hd.quantity - q = 0
        · simp only [sellPortfolio, beq_iff_eq, hc, if_true, hz]
          have : t ∉ rest.map Holding.ticker := hc ▸ hnd.1
          rw [holdingQty_eq_zero_of_not_mem this, holdingQty_cons, if_pos hc, hz]
        · have hz' : (hd.quantity - q == 0) = false := by simp [hz]
          simp only [sellPortfolio, beq_iff_eq, hc, if_true, hz', Bool.false_eq_true, if_false]
          rw [holdingQty_cons, holdingQty_cons]
          simp [hc]
      · simp only [sellPortfolio, beq_iff_eq, hc, if_false]
        rw [holdingQty_cons, if_neg hc, holdingQty_cons, if_neg hc]
        have hmem' : t ∈ rest.map Holding.ticker := by
          simp only [List.map_cons, List.mem_cons] at hmem
          rcases hmem with h | h
          · exact absurd h.symm hc
          · exact h
        exact ih hnd.2 hmem'

theorem holdingQty_sellPortfolio_ne (l : List Holding) (t t' : String) (q : Int)
    (hne : t' ≠ t) : holdingQty (sellPortfolio l t q) t' = holdingQty l t' := by
  have htt' : ¬ t = t' := fun e => hne e.symm
  induction l with
  | nil => simp [sellPortfolio]
  | cons hd rest ih =>
      by_cases hc : hd.ticker = t
      · have hct' : hd.ticker ≠ t' := by rw [hc]; exact htt'
        by_cases hz : hd.quantity - q = 0
        · simp only [sellPortfolio, beq_iff_eq, hc, if_true, hz]
          rw [holdingQty_cons, if_neg hct']
        · have hz' : (hd.quantity - q == 0) = false := by simp [hz]
          simp only [sellPortfolio, beq_iff_eq, hc, if_true, hz', Bool.false_eq_true, if_false]
          rw [holdingQty_cons, holdingQty_cons]
          simp [hct', hc, htt']
      · simp only [sellPortfolio, beq_iff_eq, hc, if_false]
        rw [holdingQty_cons, holdingQty_cons]
        by_cases hc' : hd.ticker = t'
        · simp [hc']
        · rw [if_neg hc', if_neg hc']
          exact ih

theorem netQty_append (txs : List Tx) (tx : Tx) (t : String) :
    netQty (txs ++ [tx]) t = netQty txs t + txDelta t tx := by
  simp [netQty]

/-! ## Helper lemmas: JavaScript numbers -/

theorem JNum.add_fin (a b : ℚ) : JNum.add (.fin a) (.fin b) = .fin (a + b) := rfl

theorem JNum.mul_fin (a b : ℚ) : JNum.mul (.fin a) (.fin b) = .fin (a * b) := rfl

theorem JNum.sub_fin (a b : ℚ) : JNum.sub (.fin a) (.fin b) = .fin (a - b) := by
  simp [JNum.sub, JNum.add, JNum.neg, sub_eq_add_neg]

theorem JNum.gtb_fin (a b : ℚ) : JNum.gtb (.fin a) (.fin b) = decide (b < a) := rfl

theorem lastTxPrice_cases (txs : List Tx) (t : String) :
    lastTxPrice txs t = JNum.fin 0 ∨ ∃ tx ∈ txs, lastTxPrice txs t = tx.price := by
  unfold lastTxPrice
  cases hf : txs.reverse.find? (fun tx => tx.ticker == t) with
  | none => left; rfl
  | some tx =>
      right
      exact ⟨tx, List.mem_reverse.mp (List.mem_of_find?_eq_some hf), rfl⟩

/-! ## Invariant preservation -/

theorem commitSell_inv {s : Snapshot} {t : String} {k : Int} {x : ℚ} {price : JNum}
    (ts : String) (hs : SnapInv s) (hk : 0 < k) (hp : price = JNum.fin x) (hx : 0 ≤ x)
    (hheld : k ≤ holdingQty s.portfolio t) : SnapInv (commitSell s t k price ts) := by
  obtain ⟨⟨b, hb, hb0⟩, htx, hnd, heq⟩ := hs
  subst hp
  have hkQ : (0 : ℚ) ≤ (k : ℚ) := by exact_mod_cast hk.le
  refine ⟨⟨b + x * k, ?_, ?_⟩, ?_, ?_, ?_⟩
  · simp [commitSell, hb, JNum.mul_fin, JNum.add_fin]
  · exact add_nonneg hb0 (mul_nonneg hx hkQ)
  · intro tx hmem
    simp only [commitSell, List.mem_append, List.mem_singleton] at hmem
    rcases hmem with h | h
    · exact htx tx h
    · exact ⟨x, by rw [h], hx⟩
  · simpa [commitSell] using sellPortfolio_nodup t k hnd
  · intro t'
    simp only [commitSell]
    by_cases hct : t' = t
    · subst hct
      have hne0 : holdingQty s.portfolio t' ≠ 0 := by omega
      rw [holdingQty_sellPortfolio_self t' k hnd (mem_of_holdingQty_ne_zero hne0),
        heq t', netQty_append]
      simp only [txDelta, beq_self_eq_true, if_true]
      omega
    · rw [holdingQty_sellPortfolio_ne _ _ _ _ hct, heq t', netQty_append]
      have : ¬ (t = t') := fun e => hct e.symm
      simp [txDelta, this]

theorem commitBuy_inv {s : Snapshot} {t : String} {k : Int} {x : ℚ} {price : JNum}
    (ts : String) (hs : SnapInv s) (_hk : 0 < k) (hp : price = JNum.fin x) (hx : 0 ≤ x)
    (hfund : JNum.gtb (JNum.mul price (JNum.fin (k : ℚ))) s.balance = false) :
    SnapInv (commitBuy s t k price ts) := by
  obtain ⟨⟨b, hb, hb0⟩, htx, hnd, heq⟩ := hs
  subst hp
  rw [hb, JNum.mul_fin, JNum.gtb_fin] at hfund
  have hle : x * k ≤ b := by simpa using hfund
  refine ⟨⟨b - x * k, ?_, ?_⟩, ?_, ?_, ?_⟩
  · simp [commitBuy, hb, JNum.mul_fin, JNum.sub_fin]
  · linarith
  · intro tx hmem
    simp only [commitBuy, List.mem_append, List.mem_singleton] at hmem
    rcases hmem with h | h
    · exact htx tx h
    · exact ⟨x, by rw [h], hx⟩
  · simpa [commitBuy] using buyPortfolio_nodup t k hnd
  · intro t'
    simp only [commitBuy]
    by_cases hct : t' = t
    · subst hct
      rw [holdingQty_buyPortfolio_self, heq t', netQty_append]
      simp [txDelta]
    · rw [holdingQty_buyPortfolio_ne _ _ _ _ hct, heq t', netQty_append]
      have : ¬ (t = t') := fun e => hct e.symm
      simp [txDelta, this]

theorem step_preserves {s : Snapshot} {r : TradeReq} (hs : SnapInv s) (hv : ValidReq r) :
    SnapInv (step s r) := by
  cases r with
  | widget t p q sd ts =>
      obtain ⟨⟨k, hq, hk⟩, ⟨x, hp, hx⟩⟩ := hv
      subst hq hp
      simp only [step, handleTrade]
      rw [if_neg (not_le.mpr hk)]
      cases sd with
      | SELL =>
          by_cases hh : holdingQty s.portfolio t < k
          · simp only [hh, if_true]
            exact hs
          · simp only [hh, if_false]
            exact commitSell_inv ts hs hk rfl hx (not_lt.mp hh)
      | BUY =>
          by_cases hg :
              JNum.gtb (JNum.mul (JNum.fin x) (JNum.fin (k : ℚ))) s.balance = true
          · simp only [hg, if_true]
            exact hs
          · simp only [hg, Bool.false_eq_true, if_false]
            exact commitBuy_inv ts hs hk rfl hx (Bool.not_eq_true _ ▸ hg)
  | demo t q sd ts =>
      obtain ⟨k, hq, hk⟩ := hv
      subst hq
      simp only [step, handlePortfolioTrade]
      rw [if_neg (not_le.mpr hk)]
      by_cases hfp : JNum.isFalsy (lastTxPrice s.transactions t) = true
      · simp only [hfp, if_true]
        exact hs
      · have hpx : ∃ x : ℚ, lastTxPrice s.transactions t = JNum.fin x ∧ 0 ≤ x := by
          rcases lastTxPrice_cases s.transactions t with h0 | ⟨tx, hmem, hEq⟩
          · exact ⟨0, h0, le_refl 0⟩
          · obtain ⟨p, hpr, hp0⟩ := hs.2.1 tx hmem
            exact ⟨p, hEq ▸ hpr, hp0⟩
        obtain ⟨x, hpx, hx0⟩ := hpx
        simp only [hfp, Bool.false_eq_true, if_false]
        cases sd with
        | SELL =>
            by_cases hh : holdingQty s.portfolio t < k
            · simp only [hh, if_true]
              exact hs
            · simp only [hh, if_false]
              exact commitSell_inv ts hs hk hpx hx0 (not_lt.mp hh)
        | BUY =>
            by_cases hg :
                JNum.gtb (JNum.mul (lastTxPrice s.transactions t) (JNum.fin (k : ℚ)))
                  s.balance = true
            · simp only [hg, if_true]
              exact hs
            · simp only [hg, Bool.false_eq_true, if_false]
              exact commitBuy_inv ts hs hk hpx hx0 (Bool.not_eq_true _ ▸ hg)

theorem seed_inv : SnapInv seedSnapshot := by
  refine ⟨⟨1000000, rfl, by norm_num⟩, ?_, ?_, ?_⟩ <;>
    simp [seedSnapshot, holdingQty, netQty]

theorem foldl_inv (reqs : List TradeReq) :
    ∀ s : Snapshot, SnapInv s → (∀ r ∈ reqs, ValidReq r) → SnapInv (reqs.foldl step s) := by
  induction reqs with
  | nil => intro s hs _; exact hs
  | cons r rest ih =>
      intro s hs hall
      exact ih (step s r) (step_preserves hs (hall r (by simp)))
        (fun r' hr' => hall r' (by simp [hr']))

theorem replay_inv (reqs : List TradeReq) (h : ∀ r ∈ reqs, ValidReq r) :
    SnapInv (replay reqs) :=
  foldl_inv reqs seedSnapshot seed_inv h

/-! ## Claim theorems -/

/-- C1: for every sequence of valid trade requests (positive integer
quantity, non-negative finite reference price) applied through the trade
handlers starting from the seed snapshot, the cash balance is a
non-negative (finite) value after every call: an accepted BUY never
subtracts more than the current balance and a SELL only adds to it.
Quantifying over all valid request lists covers every prefix, hence the
balance after every call. -/
theorem cash_balance_nonneg (reqs : List TradeReq) (h : ∀ r ∈ reqs, ValidReq r) :
    ∃ b : ℚ, (replay reqs).balance = JNum.fin b ∧ 0 ≤ b :=
  (replay_inv reqs h).1

/-- Witness for C1 at a concrete one-trade sequence. -/
theorem cash_balance_nonneg_witness :
    ∃ b : ℚ,
      (replay [.widget "TCS" (JNum.fin 2500) (some 10) .BUY "t1"]).balance = JNum.fin b ∧
      0 ≤ b :=
  cash_balance_nonneg [.widget "TCS" (JNum.fin 2500) (some 10) .BUY "t1"]
    (by
      intro r hr
      simp only [List.mem_singleton] at hr
      subst hr
      exact ⟨⟨10, rfl, by norm_num⟩, ⟨2500, rfl, by norm_num⟩⟩)

/-- C2: after replaying any sequence of valid trades from the seed
snapshot, the held quantity of every ticker (0 when no entry is present)
equals the net BUY minus SELL quantity over all recorded transactions for
that ticker: every accepted trade adjusts the holding and appends exactly
one matching transaction, and every rejected trade does neither. -/
theorem holdings_match_net_transactions (reqs : List TradeReq)
    (h : ∀ r ∈ reqs, ValidReq r) (t : String) :
    holdingQty (replay reqs).portfolio t = netQty (replay reqs).transactions t :=
  (replay_inv reqs h).2.2.2 t

/-- Witness for C2 at a concrete two-trade sequence. -/
theorem holdings_match_net_transactions_witness :
    holdingQty
        (replay [.widget "TCS" (JNum.fin 2500) (some 10) .BUY "t1",
                 .widget "TCS" (JNum.fin 2600) (some 4) .SELL "t2"]).portfolio "TCS" =
      netQty
        (replay [.widget "TCS" (JNum.fin 2500) (some 10) .BUY "t1",
                 .widget "TCS" (JNum.fin 2600) (some 4) .SELL "t2"]).transactions "TCS" :=
  holdings_match_net_transactions
    [.widget "TCS" (JNum.fin 2500) (some 10) .BUY "t1",
     .widget "TCS" (JNum.fin 2600) (some 4) .SELL "t2"]
    (by
      intro r hr
      simp only [List.mem_cons, List.mem_singleton, List.not_mem_nil, or_false] at hr
      rcases hr with h1 | h1 <;> subst h1
      · exact ⟨⟨10, rfl, by norm_num⟩, ⟨2500, rfl, by norm_num⟩⟩
      · exact ⟨⟨4, rfl, by norm_num⟩, ⟨2600, rfl, by norm_num⟩⟩)
    "TCS"

/-- C3: a SELL whose quantity exceeds the currently held quantity is
rejected with `insufficientHoldings` - returned as a value, never thrown -
and the snapshot is left completely unchanged, on both trade surfaces (the
DemoTrading surface under the additional premise that its derived reference
price is not falsy, since that check precedes the holdings check there). -/
theorem sell_exceeding_holdings_rejected (s : Snapshot) (t : String) (p : JNum)
    (ts : String) (k : Int) (hk : 0 < k) (hh : holdingQty s.portfolio t < k) :
    (handleTrade s t p (some k) .SELL ts = .error .insufficientHoldings ∧
      step s (.widget t p (some k) .SELL ts) = s) ∧
    (JNum.isFalsy (lastTxPrice s.transactions t) = false →
      handlePortfolioTrade s t (some k) .SELL ts = .error .insufficientHoldings ∧
      step s (.demo t (some k) .SELL ts) = s) := by
  have hk' : ¬ k ≤ 0 := not_le.mpr hk
  constructor
  · have h1 : handleTrade s t p (some k) .SELL ts = .error .insufficientHoldings := by
      simp [handleTrade, hk', hh]
    exact ⟨h1, by simp [step, h1]⟩
  · intro hpr
    have h1 : handlePortfolioTrade s t (some k) .SELL ts = .error .insufficientHoldings := by
      simp [handlePortfolioTrade, hk', hpr, hh]
    exact ⟨h1, by simp [step, h1]⟩

/-- Witness for C3 at the Scenario A state (10 shares held after a BUY of
10 at price 2,500): a SELL of 15 is rejected on both surfaces and the state
is unchanged. -/
theorem sell_exceeding_holdings_rejected_witness :
    (handleTrade (replay [.widget "TCS" (JNum.fin 2500) (some 10) .BUY "t1"]) "TCS"
        (JNum.fin 2500) (some 15) .SELL "t2" = .error .insufficientHoldings ∧
      step (replay [.widget "TCS" (JNum.fin 2500) (some 10) .BUY "t1"])
        (.widget "TCS" (JNum.fin 2500) (some 15) .SELL "t2") =
        replay [.widget "TCS" (JNum.fin 2500) (some 10) .BUY "t1"]) ∧
    (handlePortfolioTrade (replay [.widget "TCS" (JNum.fin 2500) (some 10) .BUY "t1"]) "TCS"
        (some 15) .SELL "t2" = .error .insufficientHoldings ∧
      step (replay [.widget "TCS" (JNum.fin 2500) (some 10) .BUY "t1"])
        (.demo "TCS" (some 15) .SELL "t2") =
        replay [.widget "TCS" (JNum.fin 2500) (some 10) .BUY "t1"]) := by
  have h := sell_exceeding_holdings_rejected
    (replay [.widget "TCS" (JNum.fin 2500) (some 10) .BUY "t1"]) "TCS" (JNum.fin 2500) "t2" 15
    (by norm_num)
    (by
      have : (replay [.widget "TCS" (JNum.fin 2500) (some 10) .BUY "t1"]).portfolio =
          [⟨"TCS", 10⟩] := by
        norm_num [replay, step, handleTrade, seedSnapshot, holdingQty, commitBuy, buyPortfolio,
          JNum.gtb, JNum.mul]
      rw [this]
      decide)
  refine ⟨h.1, h.2 ?_⟩
  have : (replay [.widget "TCS" (JNum.fin 2500) (some 10) .BUY "t1"]).transactions =
      [⟨"TCS", Side.BUY, 10, JNum.fin 2500, "t1"⟩] := by
    norm_num [replay, step, handleTrade, seedSnapshot, holdingQty, commitBuy, JNum.gtb, JNum.mul]
  rw [this]
  decide

/-- C4: from the seed balance 1,000,000, a BUY of 10 shares at reference
price 2,500 yields balance 975,000 and holdings `[{ticker, quantity: 10}]`;
a subsequent SELL of 10 shares at reference price 2,600 yields balance
1,001,000 and empty holdings - the entry reaching exactly 0 is removed. -/
theorem scenario_buy_then_sell :
    replay [.widget "TCS" (JNum.fin 2500) (some 10) .BUY "t1"] =
      { balance := JNum.fin 975000, portfolio := [⟨"TCS", 10⟩],
        transactions := [⟨"TCS", Side.BUY, 10, JNum.fin 2500, "t1"⟩] } ∧
    replay [.widget "TCS" (JNum.fin 2500) (some 10) .BUY "t1",
            .widget "TCS" (JNum.fin 2600) (some 10) .SELL "t2"] =
      { balance := JNum.fin 1001000, portfolio := [],
        transactions := [⟨"TCS", Side.BUY, 10, JNum.fin 2500, "t1"⟩,
                         ⟨"TCS", Side.SELL, 10, JNum.fin 2600, "t2"⟩] } := by
  constructor
  · norm_num [replay, step, handleTrade, seedSnapshot, holdingQty, commitBuy, buyPortfolio,
      JNum.gtb, JNum.mul, JNum.sub, JNum.add, JNum.neg]
  · norm_num [replay, step, handleTrade, seedSnapshot, holdingQty, commitBuy, commitSell,
      buyPortfolio, sellPortfolio, JNum.gtb, JNum.mul, JNum.sub, JNum.add, JNum.neg]

/-- C5 counterexample: the claim says a trade with a non-finite/NaN
reference price is rejected with `InvalidRequest` before any other check.
In `handleTrade` the reference price is never validated: a BUY of 1 share
at price NaN from the seed snapshot is *accepted* (`NaN > balance` is
false), and the NaN propagates into the stored balance. -/
theorem nan_price_buy_accepted :
    handleTrade seedSnapshot "TCS" JNum.nan (some 1) .BUY "t0" =
      .ok { balance := JNum.nan, portfolio := [⟨"TCS", 1⟩],
            transactions := [⟨"TCS", Side.BUY, 1, JNum.nan, "t0"⟩] } ∧
    handleTrade seedSnapshot "TCS" JNum.nan (some 1) .BUY "t0" ≠
      .error .invalidRequest := by
  constructor
  · decide
  · decide

/-- C5 (amended): a trade request whose quantity parses to NaN, 0 or a
negative value is rejected with `invalidRequest` before any other check by
both handlers - regardless of the snapshot, the price and the side - and
the ledger snapshot is left unchanged.  (The reference-price half of the
original claim fails: see the counterexample.) -/
theorem invalid_quantity_rejected_first (s : Snapshot) (t : String) (p : JNum)
    (sd : Side) (ts : String) (q : Option Int)
    (hq : q = none ∨ ∃ k : Int, q = some k ∧ k ≤ 0) :
    handleTrade s t p q sd ts = .error .invalidRequest ∧
    handlePortfolioTrade s t q sd ts = .error .invalidRequest ∧
    step s (.widget t p q sd ts) = s ∧
    step s (.demo t q sd ts) = s := by
  rcases hq with h | ⟨k, hk, hk0⟩
  · subst h
    exact ⟨rfl, rfl, rfl, rfl⟩
  · subst hk
    have h1 : handleTrade s t p (some k) sd ts = .error .invalidRequest := by
      simp [handleTrade, hk0]
    have h2 : handlePortfolioTrade s t (some k) sd ts = .error .invalidRequest := by
      simp [handlePortfolioTrade, hk0]
    exact ⟨h1, h2, by simp [step, h1], by simp [step, h2]⟩

/-- Witness for the amended C5 at quantity 0 on the seed snapshot. -/
theorem invalid_quantity_rejected_first_witness :
    handleTrade seedSnapshot "TCS" (JNum.fin 2500) (some 0) .BUY "t0" =
      .error .invalidRequest ∧
    handlePortfolioTrade seedSnapshot "TCS" (some 0) .BUY "t0" =
      .error .invalidRequest ∧
    step seedSnapshot (.widget "TCS" (JNum.fin 2500) (some 0) .BUY "t0") = seedSnapshot ∧
    step seedSnapshot (.demo "TCS" (some 0) .BUY "t0") = seedSnapshot :=
  invalid_quantity_rejected_first seedSnapshot "TCS" (JNum.fin 2500) .BUY "t0" (some 0)
    (Or.inr ⟨0, rfl, le_refl 0⟩)

/-- C6 counterexample: the claim says only values in `[0,1)` are rescaled
and any other value passes through unchanged, but the source condition is
`confidence < 1`: the value -1, outside `[0,1)`, is rescaled to -100
instead of passing through. -/
theorem confidence_negative_rescaled :
    normalizeConfidence (some (JNum.fin (-1))) = JNum.fin (-100) ∧
    claimConfidence (some (JNum.fin (-1))) = JNum.fin (-1) ∧
    JNum.fin (-100) ≠ JNum.fin (-1) := by
  refine ⟨?_, ?_, ?_⟩
  · norm_num [normalizeConfidence, JNum.gtb, JNum.mul]
  · norm_num [claimConfidence]
  · intro h
    have := JNum.fin.inj h
    norm_num at this

/-- C6 (amended): confidence normalization is applied exactly once with
the source's actual guard: an absent/null confidence becomes 0; any finite
value strictly below 1 (not only values in `[0,1)`) is multiplied by 100;
any finite value at least 1 passes through unchanged; NaN passes through
(NaN < 1 is false). -/
theorem confidence_normalization_amended :
    normalizeConfidence none = JNum.fin 0 ∧
    (∀ q : ℚ, q < 1 → normalizeConfidence (some (JNum.fin q)) = JNum.fin (q * 100)) ∧
    (∀ q : ℚ, 1 ≤ q → normalizeConfidence (some (JNum.fin q)) = JNum.fin q) ∧
    normalizeConfidence (some JNum.nan) = JNum.nan := by
  refine ⟨rfl, ?_, ?_, rfl⟩
  · intro q hq
    simp [normalizeConfidence, JNum.gtb, JNum.mul, hq]
  · intro q hq
    simp [normalizeConfidence, JNum.gtb, JNum.mul, not_lt.mpr hq]

/-- Witness for the amended C6: Scenario D, 0.82 normalizes to 82 and 82
stays 82. -/
theorem confidence_normalization_amended_witness :
    normalizeConfidence (some (JNum.fin (82 / 100))) = JNum.fin 82 ∧
    normalizeConfidence (some (JNum.fin 82)) = JNum.fin 82 := by
  have h := confidence_normalization_amended
  refine ⟨?_, h.2.2.1 82 (by norm_num)⟩
  have h1 := h.2.1 (82 / 100) (by norm_num)
  rw [h1]
  norm_num

/-- C7 counterexample: the claim says the first *non-empty* price field
wins and such a payload is not rejected.  An empty array is truthy in
JavaScript, so a present-but-empty `prediction_prices` shadows a non-empty
`predicted_prices`: the chosen series is `[]`, not `[5]`, and the payload
is rejected as an empty series. -/
theorem present_empty_prices_shadow :
    chosePrices c7payload = [] ∧
    c7payload.predicted_prices = some [JNum.fin 5] ∧
    ([] : List JNum) ≠ [JNum.fin 5] ∧
    normalizeWidget (some c7payload) "TCS" = .error .emptySeries := by
  refine ⟨by decide, by decide, by decide, by decide⟩

/-- C7 (amended): price-series selection takes the first *present* field:
whenever `prediction_prices` is present its value is chosen - even when it
is empty and `predicted_prices` is non-empty - and a payload whose chosen
series is empty is rejected (as invalid format or as an empty series)
rather than falling back to the other field. -/
theorem chose_prices_first_present (d : RawApi) (l : List JNum) (sym : String)
    (h : d.prediction_prices = some l) :
    chosePrices d = l ∧
    (l = [] →
      normalizeWidget (some d) sym = .error .invalidFormat ∨
      normalizeWidget (some d) sym = .error .emptySeries) := by
  constructor
  · simp [chosePrices, h]
  · rintro rfl
    by_cases hfmt : d.prediction_dates = none ∨ d.current_price = none
    · left
      simp only [normalizeWidget]
      rw [if_pos (Or.inr hfmt)]
    · right
      simp only [normalizeWidget]
      rw [if_neg, if_pos]
      · left
        simp [chosePrices, h]
      · push_neg at hfmt
        simp [h, hfmt.1, hfmt.2]

/-- Witness for the amended C7 at the concrete shadowing payload. -/
theorem chose_prices_first_present_witness :
    chosePrices c7payload = [] ∧
    (normalizeWidget (some c7payload) "TCS" = .error .invalidFormat ∨
      normalizeWidget (some c7payload) "TCS" = .error .emptySeries) := by
  have h := chose_prices_first_present c7payload [] "TCS" (by decide)
  exact ⟨h.1, h.2 rfl⟩

/-- C8 counterexample: the claim says a normalized record satisfies
`dates.length = prices.length` by truncation to the shorter length.  The
source performs no truncation: a payload with 1 date and 2 prices
normalizes successfully to a record with 1 date and 2 prices. -/
theorem no_truncation_on_mismatch :
    normalizeWidget (some c8payload) "TCS" =
      .ok { ticker := "TCS", current_price := JNum.fin 10, prediction_dates := ["d1"],
            prediction_prices := [JNum.fin 1, JNum.fin 2], confidence := JNum.fin 0 } ∧
    (["d1"] : List String).length = 1 ∧
    ([JNum.fin 1, JNum.fin 2] : List JNum).length = 2 ∧
    (1 : Nat) ≠ 2 := by
  refine ⟨by decide, rfl, rfl, by decide⟩

/-- C8 (amended): normalization never throws on a length mismatch - it is
a total function - but it performs no length reconciliation either: every
accepted record carries the dates array and the chosen prices array exactly
as received, so their lengths may differ. -/
theorem normalize_keeps_lengths (d : RawApi) (sym : String) (r : StockPrediction)
    (h : normalizeWidget (some d) sym = .ok r) :
    r.prediction_dates = d.prediction_dates.getD [] ∧
    r.prediction_prices = chosePrices d := by
  by_cases h1 : (d.prediction_prices = none ∧ d.predicted_prices = none)
      ∨ d.prediction_dates = none ∨ d.current_price = none
  · simp only [normalizeWidget] at h
    rw [if_pos h1] at h
    exact absurd h (by simp)
  · by_cases h2 : chosePrices d = [] ∨ d.prediction_dates.getD [] = []
    · simp only [normalizeWidget] at h
      rw [if_neg h1, if_pos h2] at h
      exact absurd h (by simp)
    · simp only [normalizeWidget] at h
      rw [if_neg h1, if_neg h2] at h
      have := Except.ok.inj h
      rw [← this]
      exact ⟨rfl, rfl⟩

/-- Witness for the amended C8 at the concrete mismatched payload. -/
theorem normalize_keeps_lengths_witness :
    ({ ticker := "TCS", current_price := JNum.fin 10, prediction_dates := ["d1"],
        prediction_prices := [JNum.fin 1, JNum.fin 2],
        confidence := JNum.fin 0 } : StockPrediction).prediction_dates =
      c8payload.prediction_dates.getD [] ∧
    ({ ticker := "TCS", current_price := JNum.fin 10, prediction_dates := ["d1"],
        prediction_prices := [JNum.fin 1, JNum.fin 2],
        confidence := JNum.fin 0 } : StockPrediction).prediction_prices =
      chosePrices c8payload :=
  normalize_keeps_lengths c8payload "TCS"
    { ticker := "TCS", current_price := JNum.fin 10, prediction_dates := ["d1"],
      prediction_prices := [JNum.fin 1, JNum.fin 2], confidence := JNum.fin 0 }
    (by decide)

/-- C9 counterexample: the claim says malformed stored data never yields a
non-numeric balance.  A stored balance record `"oops"` is non-empty, so it
is fed to `parseFloat`, which yields NaN - not the seed value 1,000,000. -/
theorem malformed_balance_is_nan :
    loadBalance (some "oops") = JNum.nan ∧ JNum.nan ≠ JNum.fin 1000000 := by
  constructor
  · simp [loadBalance, jsOrStr, jsParseFloat, takeDigits]
  · decide

/-- C9 (amended): loading the balance returns the seed value 1,000,000
when the stored record is absent or empty, and parses a stored decimal
literal; but a malformed (non-numeric) stored balance is *not* treated as
absent: it loads as NaN.  (Malformed holdings JSON degrades to `[]` only
on the widget trade path, which wraps the parse in try/catch; the
DemoTrading loader would throw.) -/
theorem load_balance_behavior :
    loadBalance none = JNum.fin 1000000 ∧
    loadBalance (some "") = JNum.fin 1000000 ∧
    loadBalance (some "250000.5") = JNum.fin (500001 / 2) ∧
    loadBalance (some "oops") = JNum.nan := by
  refine ⟨?_, ?_, ?_, ?_⟩
  · simp +decide [loadBalance, jsOrStr, jsParseFloat, takeDigits, digitsToNat]
  · simp +decide [loadBalance, jsOrStr, jsParseFloat, takeDigits, digitsToNat]
  · simp +decide [loadBalance, jsOrStr, jsParseFloat, takeDigits, digitsToNat]
    norm_num
  · simp +decide [loadBalance, jsOrStr, jsParseFloat, takeDigits, digitsToNat]

/-- C10: when every primary attempt fails with a timeout error, the
prediction fetch makes exactly 3 primary attempts (2 retries), sleeping
`2000ms * attemptNumber` before attempt 2 and attempt 3 (4000ms then
6000ms); it then attempts the degraded request exactly once, and when that
degraded request succeeds with a non-empty price series its normalized
payload is accepted as the final result with no further retries
(no degraded sleeps). -/
theorem primary_retry_and_degraded_fallback (symbol : String)
    (pO dO : Nat → ApiOutcome) (e : ApiError) (raw : RawApi)
    (hp : ∀ i, pO i = .fail e) (ht : jsIncludes e.message "timeout" = true)
    (hd : dO 0 = .resp (some raw))
    (hne : (mapRaw raw symbol).prediction_prices ≠ []) :
    (fetchPrediction symbol pO dO).primarySleeps = [2000 * 2, 2000 * 3] ∧
    (fetchPrediction symbol pO dO).primarySleeps.length + 1 = 3 ∧
    (fetchPrediction symbol pO dO).degradedAttempted = true ∧
    (fetchPrediction symbol pO dO).degradedSleeps = [] ∧
    (fetchPrediction symbol pO dO).result =
      .ok (degradedNormalize (mapRaw raw symbol) symbol) := by
  have hprim : predictLoop symbol pO 2 0 = ([2000 * 2, 2000 * 3], .error e) := by
    simp [predictLoop, hp 0, hp 1, hp 2]
  have hdeg : predictLoop symbol dO 2 0 = ([], .ok (mapRaw raw symbol)) := by
    simp [predictLoop, hd]
  have hlen : 0 < (mapRaw raw symbol).prediction_prices.length :=
    List.length_pos.mpr hne
  refine ⟨?_, ?_, ?_, ?_, ?_⟩ <;>
    simp [fetchPrediction, hprim, hdeg, ht, hlen]

/-- Witness for C10 with a concrete all-timeout primary oracle and a
degraded oracle answering on its first attempt. -/
theorem primary_retry_and_degraded_fallback_witness :
    (fetchPrediction "TCS" (fun _ => .fail timeoutError)
        (fun _ => .resp (some c10raw))).primarySleeps = [2000 * 2, 2000 * 3] ∧
    (fetchPrediction "TCS" (fun _ => .fail timeoutError)
        (fun _ => .resp (some c10raw))).primarySleeps.length + 1 = 3 ∧
    (fetchPrediction "TCS" (fun _ => .fail timeoutError)
        (fun _ => .resp (some c10raw))).degradedAttempted = true ∧
    (fetchPrediction "TCS" (fun _ => .fail timeoutError)
        (fun _ => .resp (some c10raw))).degradedSleeps = [] ∧
    (fetchPrediction "TCS" (fun _ => .fail timeoutError)
        (fun _ => .resp (some c10raw))).result =
      .ok (degradedNormalize (mapRaw c10raw "TCS") "TCS") :=
  primary_retry_and_degraded_fallback "TCS" (fun _ => .fail timeoutError)
    (fun _ => .resp (some c10raw)) timeoutError c10raw
    (fun _ => rfl) (by decide) rfl (by decide)
